import Mathlib

/-!
Verification development for the todo-app web service.

The file shallowly embeds the parts of the program the claims are about:
the task persistence layer (database.go), the request handlers
(handlers.go), the body-capturing middleware (middleware.go), the
telemetry shutdown sequence (telemetry.go), the request router (main.go),
and the diagnostic SQL formatter (formatQueryWithArgs in database.go).
Each embedded definition is translated from the corresponding Go source.
-/

namespace TodoApp

/-! ## Data model: tasks and the store (database.go) -/

/-- A row of the `tasks` table: `id INTEGER PRIMARY KEY AUTOINCREMENT`,
`title TEXT NOT NULL`, `completed BOOLEAN DEFAULT 0`,
`created_at TIMESTAMP DEFAULT CURRENT_TIMESTAMP`. -/
structure Task where
  id : Int
  title : String
  completed : Bool
  createdAt : Nat
deriving DecidableEq, Repr

/-- The SQLite store: the rows of the `tasks` table in insertion order,
the next `AUTOINCREMENT` key, and the current clock used for
`CURRENT_TIMESTAMP`. -/
structure Store where
  rows : List Task
  nextId : Int
  now : Nat
deriving DecidableEq, Repr

/-- Error taxonomy surfaced by the persistence layer to the handlers:
`notFound` models `sql.ErrNoRows`, `internal` models any other error. -/
inductive DbE where
  | notFound
  | internal
deriving DecidableEq, Repr

/-- Freshness of the `AUTOINCREMENT` key: every stored row's id is below
the next generated id. Holds for every store reachable from an empty
table. -/
def StoreWF (s : Store) : Prop := ∀ t ∈ s.rows, t.id < s.nextId

/-- Ordering used by `SELECT ... ORDER BY created_at DESC`: row `a` may
come before row `b` exactly when `a` was created no earlier than `b`. -/
def createdGe (a b : Task) : Prop := b.createdAt ≤ a.createdAt

instance : DecidableRel createdGe :=
  fun a b => inferInstanceAs (Decidable (b.createdAt ≤ a.createdAt))

instance : IsTotal Task createdGe :=
  ⟨fun a b => Nat.le_total b.createdAt a.createdAt⟩

instance : IsTrans Task createdGe :=
  ⟨fun _ _ _ h1 h2 => Nat.le_trans h2 h1⟩

/-- `DB.GetAllTasks`: `SELECT id, title, completed, created_at FROM tasks
ORDER BY created_at DESC`, scanned into `var tasks []Task` by repeated
`append`. The slice stays `nil` (here: `none`) when zero rows are
scanned, and is the sorted rows otherwise. -/
def GetAllTasks (s : Store) : Option (List Task) :=
  let sorted := List.insertionSort createdGe s.rows
  if sorted.isEmpty then none else some sorted

/-- `DB.CreateTask`: the guard `if title == "errorTest"` returns a
simulated database error; otherwise `INSERT INTO tasks (title) VALUES (?)
RETURNING id, title, completed, created_at` inserts one row with a fresh
id, `completed` false and the current timestamp, and returns the
populated record. -/
def CreateTask (s : Store) (title : String) : Except DbE (Task × Store) :=
  if title = "errorTest" then Except.error DbE.internal
  else
    let t : Task := ⟨s.nextId, title, false, s.now⟩
    Except.ok (t, ⟨s.rows ++ [t], s.nextId + 1, s.now + 1⟩)

/-- `DB.DeleteTask`: `DELETE FROM tasks WHERE id = ?`; when
`RowsAffected()` is zero the operation returns `sql.ErrNoRows`. -/
def DeleteTask (s : Store) (id : Int) : Except DbE Store :=
  let remaining := s.rows.filter (fun t => t.id != id)
  if s.rows.length = remaining.length then Except.error DbE.notFound
  else Except.ok ⟨remaining, s.nextId, s.now⟩

/-- The per-row effect of `UPDATE tasks SET completed = 1 WHERE id = ?`. -/
def completeRow (id : Int) (t : Task) : Task :=
  if t.id == id then { t with completed := true } else t

/-- `DB.CompleteTask`: `UPDATE tasks SET completed = 1 WHERE id = ?
RETURNING id, title, completed, created_at`, scanned with
`QueryRowContext(...).Scan`: the first returned (updated) row, or
`sql.ErrNoRows` when the update matched nothing. -/
def CompleteTask (s : Store) (id : Int) : Except DbE (Task × Store) :=
  match s.rows.find? (fun t => t.id == id) with
  | none => Except.error DbE.notFound
  | some t =>
      Except.ok ({ t with completed := true },
                 ⟨s.rows.map (completeRow id), s.nextId, s.now⟩)

/-- The store backing a freshly created, empty `tasks` table. -/
def store0 : Store := ⟨[], 1, 0⟩

/-! ## Diagnostic SQL formatter (`formatQueryWithArgs`, database.go) -/

/-- The bound-parameter values the repository passes to its statements,
mirroring the branches of the type switch in `formatQueryWithArgs`:
`nil`, `string`, integers, and `bool`. -/
inductive SqlValue where
  | null
  | str (s : String)
  | int (n : Int)
  | bool (b : Bool)
deriving DecidableEq, Repr

/-- The single-quote character used when quoting string values. -/
def quoteCh : Char := Char.ofNat 39

/-- The textual rendering of one bound value: `NULL` for nil, `'%s'` for
strings, `%d` for integers, `TRUE`/`FALSE` for booleans. -/
def renderValue : SqlValue → List Char
  | SqlValue.null => "NULL".toList
  | SqlValue.str s => quoteCh :: s.toList ++ [quoteCh]
  | SqlValue.int n => (toString n).toList
  | SqlValue.bool b => if b then "TRUE".toList else "FALSE".toList

/-- `strings.Replace(s, pat, rep, 1)`: replace the first occurrence of
`pat` in `s` by `rep`, leaving `s` unchanged when `pat` does not occur. -/
def replaceOnce (pat rep : List Char) : List Char → List Char
  | [] => []
  | c :: cs =>
    if pat.isPrefixOf (c :: cs) then rep ++ (c :: cs).drop pat.length
    else c :: replaceOnce pat rep cs

/-- The loop body of `formatQueryWithArgs`: for argument `i` the
placeholder is `$i+1` when the original query contains a dollar sign
(PostgreSQL style) and a literal `?` otherwise, and the first occurrence
of that placeholder in the accumulated text is replaced by the rendered
value. -/
def formatArgsLoop (hasDollar : Bool) : Nat → List Char → List SqlValue → List Char
  | _, acc, [] => acc
  | i, acc, a :: rest =>
    let ph := if hasDollar then '$' :: (toString (i + 1)).toList else ['?']
    formatArgsLoop hasDollar (i + 1) (replaceOnce ph (renderValue a) acc) rest

/-- `formatQueryWithArgs(query, args)`: returns the query unchanged when
there are no arguments, and otherwise substitutes each argument in
positional order. -/
def formatQueryWithArgs (query : List Char) (args : List SqlValue) : List Char :=
  if args.isEmpty then query
  else formatArgsLoop (query.contains '$') 0 query args

/-- The statement text actually handed to the driver by
`QueryRowContext` / `ExecContext`: the raw query; bound arguments travel
separately and are never spliced into it. -/
def executedStatement (query : List Char) (_args : List SqlValue) : List Char := query

/-- The `INSERT` statement text used by `DB.CreateTask`. -/
def insertTaskQuery : List Char :=
  "INSERT INTO tasks (title) VALUES (?) RETURNING id, title, completed, created_at".toList

/-- The `DELETE` statement text used by `DB.DeleteTask`. -/
def deleteTaskQuery : List Char := "DELETE FROM tasks WHERE id = ?".toList

/-- The `UPDATE` statement text used by `DB.CompleteTask`. -/
def updateTaskQuery : List Char :=
  "UPDATE tasks SET completed = 1 WHERE id = ? RETURNING id, title, completed, created_at".toList

/-! ## Body-capturing middleware (middleware.go) -/

/-- A request body stream: the bytes still readable from it, and whether
reading past them yields an error (`true`) or a clean EOF (`false`). -/
structure ByteStream where
  avail : List Nat
  failsAfter : Bool
deriving DecidableEq, Repr

/-- `io.ReadAll` on a stream: on a failing stream the bytes are consumed
but the call reports an error (the caller discards the data); otherwise
it returns the readable bytes. Either way the stream is left drained. -/
def readAll (s : ByteStream) : Except Unit (List Nat) × ByteStream :=
  if s.failsAfter then (Except.error (), ⟨[], true⟩)
  else (Except.ok s.avail, ⟨[], false⟩)

/-- A fresh empty stream that yields EOF immediately, as produced by
`io.NopCloser(bytes.NewReader(nil))`. -/
def emptyBodyStream : ByteStream := ⟨[], false⟩

/-- A span event with the attributes the middleware and client attach:
body content, byte size, and (for responses) the status code. -/
structure SpanEvent where
  name : String
  content : List Nat
  size : Nat
  status : Option Nat
deriving DecidableEq, Repr

/-- The request-body side of `BodyTracingMiddleware`: when the body is
non-nil and the method is neither GET nor DELETE, read it fully; on
success emit the `http.request.body` event and hand the handler a fresh
stream over the read bytes; on failure emit nothing and leave the (now
consumed, still erroring) original body in place. Returns the body seen
by the downstream handler and the emitted event, if any. -/
def captureRequestBody (method : String) (body : Option ByteStream) :
    Option ByteStream × Option SpanEvent :=
  match body with
  | none => (none, none)
  | some s =>
    if method ≠ "GET" ∧ method ≠ "DELETE" then
      match readAll s with
      | (Except.ok bs, _) =>
          (some ⟨bs, false⟩, some ⟨"http.request.body", bs, bs.length, none⟩)
      | (Except.error _, consumed) => (some consumed, none)
    else (some s, none)

/-- One call a handler makes against its `http.ResponseWriter`. -/
inductive WriteOp where
  | write (bs : List Nat)
  | writeHeader (code : Nat)
deriving DecidableEq, Repr

/-- The real transport underneath the wrapping response writer: the
status code sent (if any) and the bytes written to the client. -/
structure Underlying where
  status : Option Nat
  out : List Nat
deriving DecidableEq, Repr

/-- The effect of one handler call on the real transport. -/
def underlyingStep (u : Underlying) : WriteOp → Underlying
  | WriteOp.write bs => { u with out := u.out ++ bs }
  | WriteOp.writeHeader c => { u with status := some c }

/-- The middleware's `responseWriter` wrapper: the wrapped transport, the
mirror buffer, and the tracked status code (initialized to 200). -/
structure RespWriter where
  underlying : Underlying
  body : List Nat
  statusCode : Nat
deriving DecidableEq, Repr

/-- `responseWriter.Write` mirrors the bytes into the buffer and forwards
them; `responseWriter.WriteHeader` records the code and forwards it. -/
def rwStep (rw : RespWriter) : WriteOp → RespWriter
  | WriteOp.write bs =>
      { rw with body := rw.body ++ bs,
                underlying := underlyingStep rw.underlying (WriteOp.write bs) }
  | WriteOp.writeHeader c =>
      { rw with statusCode := c,
                underlying := underlyingStep rw.underlying (WriteOp.writeHeader c) }

/-- The wrapper as constructed by the middleware: empty buffer, status
code defaulted to `http.StatusOK`. -/
def initialRespWriter : RespWriter := ⟨⟨none, []⟩, [], 200⟩

/-- Running the wrapped handler's write calls through the wrapper. -/
def runWrapped (ops : List WriteOp) : RespWriter := ops.foldl rwStep initialRespWriter

/-- Running the same write calls directly against the transport. -/
def runDirect (ops : List WriteOp) : Underlying := ops.foldl underlyingStep ⟨none, []⟩

/-- The response-body event the middleware emits after the handler
returns: only when bytes were buffered, carrying content, size and the
tracked status code. -/
def middlewareRespEvent (ops : List WriteOp) : Option SpanEvent :=
  let rw := runWrapped ops
  if 0 < rw.body.length then
    some ⟨"http.response.body", rw.body, rw.body.length, some rw.statusCode⟩
  else none

/-! ## Telemetry shutdown (InitTelemetry, telemetry.go) -/

/-- The loop of the returned shutdown closure: `var err error; for _, fn
:= range shutdownFuncs { err = fn(ctx) }; return err`. Each registered
function is a label paired with the error it returns (`none` = nil).
The result is the labels invoked in order and the final `err`. -/
def shutdownLoop : Option String → List (String × Option String) → List String × Option String
  | acc, [] => ([], acc)
  | _, (name, r) :: rest =>
      let (called, e) := shutdownLoop r rest
      (name :: called, e)

/-- The shutdown closure applied to the registered functions. -/
def runShutdown (fns : List (String × Option String)) : List String × Option String :=
  shutdownLoop none fns

/-- `InitTelemetry` appends the shutdowns of the tracer provider, the
meter provider and the logger provider, in that order. -/
def initShutdownFuncs (traceErr metricErr logErr : Option String) :
    List (String × Option String) :=
  [("trace", traceErr), ("metric", metricErr), ("log", logErr)]

/-! ## Request router for the `/tasks/` subtree (main.go) -/

/-- A Go slice expression `s[low:]`: total only when `0 ≤ low ≤ len(s)`;
outside those bounds the program panics (modelled as `none`). -/
def goSliceFrom (s : List Char) (low : Int) : Option (List Char) :=
  if 0 ≤ low ∧ low ≤ (s.length : Int) then some (s.drop low.toNat) else none

/-- The characters of the route template `/tasks/`. -/
def tasksSlashChars : List Char := "/tasks/".toList

/-- The characters of the suffix `/complete`. -/
def completeSuffixChars : List Char := "/complete".toList

/-- Where the `/tasks/` route dispatches a request. -/
inductive Routed where
  | deleteH
  | completeH
  | notFoundResp
  | methodNotAllowedResp
deriving DecidableEq, Repr

/-- The anonymous handler registered on `"/tasks/"` in `main`: DELETE and
OPTIONS go to the delete handler; POST on a path longer than `/tasks/`
inspects `pathSuffix[len(pathSuffix)-9:]` — a slice expression that
panics (`none`) when the suffix is shorter than nine characters —
against `"/complete"`; everything else is 404 or 405. -/
def routeTasksSlash (method : String) (path : List Char) : Option Routed :=
  if method = "DELETE" ∨ method = "OPTIONS" then some Routed.deleteH
  else if method = "POST" ∧ tasksSlashChars.length < path.length then
    let pathSuffix := path.drop tasksSlashChars.length
    if 0 < pathSuffix.length then
      match goSliceFrom pathSuffix ((pathSuffix.length : Int) - 9) with
      | none => none
      | some tail =>
        if tail = completeSuffixChars then some Routed.completeH
        else some Routed.notFoundResp
    else some Routed.notFoundResp
  else some Routed.methodNotAllowedResp

/-! ## Request handlers (handlers.go) -/

/-- Which metric instrument an emission targets: the
`todo_app.requests` counter or the `todo_app.request_duration`
histogram. -/
inductive Instrument where
  | counter
  | duration
deriving DecidableEq, Repr

/-- One metric emission with its attributes; `status` is `none` when the
emission carries no `status_code` attribute. -/
structure MetricEvent where
  instr : Instrument
  method : String
  endpoint : String
  status : Option Nat
deriving DecidableEq, Repr

/-- `recordRequestMetrics`: one counter increment and one duration
observation, both tagged with method, endpoint, and status code. -/
def stdMetrics (method endpoint : String) (status : Nat) : List MetricEvent :=
  [⟨Instrument.counter, method, endpoint, some status⟩,
   ⟨Instrument.duration, method, endpoint, some status⟩]

/-- The bare `requestCounter.Add` in `GetTasks` (before the store call):
tagged only with method and endpoint, no status code. -/
def getCounterNoStatus : MetricEvent := ⟨Instrument.counter, "GET", "/tasks", none⟩

/-- The outcome of decoding the JSON request body of `CreateTask`. -/
inductive BodyParse where
  | malformed
  | parsed (title : String)
deriving DecidableEq, Repr

/-- The response payload a handler writes. -/
inductive RespBody where
  | empty
  | text (msg : String)
  | jsonTasks (ts : List Task)
  | jsonTask (t : Task)
deriving DecidableEq, Repr

/-- A handler's terminal outcome: status code, payload, and the metric
emissions it performed. -/
structure HandlerOut where
  status : Nat
  body : RespBody
  metrics : List MetricEvent
deriving DecidableEq, Repr

/-- Decimal value of a digit character. -/
def digitVal (c : Char) : Option Nat :=
  if c.isDigit then some (c.toNat - 48) else none

/-- Accumulating decimal parse; fails on any non-digit. -/
def parseDigitsAux : Option Nat → List Char → Option Nat
  | acc, [] => acc
  | acc, c :: cs =>
    match acc, digitVal c with
    | some n, some d => parseDigitsAux (some (n * 10 + d)) cs
    | _, _ => none

/-- `strconv.Atoi`: an optional sign followed by at least one digit and
nothing else. -/
def goAtoi (s : List Char) : Option Int :=
  match s with
  | [] => none
  | c :: rest =>
    if c = '-' then
      match rest with
      | [] => none
      | _ => (parseDigitsAux (some 0) rest).map (fun n => -(n : Int))
    else if c = '+' then
      match rest with
      | [] => none
      | _ => (parseDigitsAux (some 0) rest).map (fun n => (n : Int))
    else (parseDigitsAux (some 0) s).map (fun n => (n : Int))

/-- `strings.TrimPrefix`. -/
def trimPre (s pre : List Char) : List Char :=
  if pre.isPrefixOf s then s.drop pre.length else s

/-- `strings.TrimSuffix`. -/
def trimSuf (s suf : List Char) : List Char :=
  if suf.isSuffixOf s then s.take (s.length - suf.length) else s

/-- `Handlers.GetTasks`, parametrized by the outcome of
`h.db.GetAllTasks` (`Except.ok` carries the possibly-nil slice). Note
the bare counter increment before the store call and the nil-slice
replacement `if tasks == nil { tasks = []Task{} }`. -/
def GetTasksH (method : String) (dbResult : Except DbE (Option (List Task))) : HandlerOut :=
  if method = "OPTIONS" then ⟨200, RespBody.empty, []⟩
  else if method ≠ "GET" then ⟨405, RespBody.text "Method not allowed", []⟩
  else
    match dbResult with
    | Except.error _ =>
        ⟨500, RespBody.text "Internal server error",
         getCounterNoStatus :: stdMetrics "GET" "/tasks" 500⟩
    | Except.ok tasksOpt =>
        ⟨200, RespBody.jsonTasks (tasksOpt.getD []),
         getCounterNoStatus :: stdMetrics "GET" "/tasks" 200⟩

/-- `Handlers.CreateTask`, parametrized by the decoded body and by
`h.db.CreateTask` as a function of the title. The outbound notification
call (`notifyExternalAPI`) is fire-and-forget and does not influence the
response or the metrics. -/
def CreateTaskH (method : String) (body : BodyParse)
    (db : String → Except DbE Task) : HandlerOut :=
  if method = "OPTIONS" then ⟨200, RespBody.empty, []⟩
  else if method ≠ "POST" then ⟨405, RespBody.text "Method not allowed", []⟩
  else
    match body with
    | BodyParse.malformed => ⟨400, RespBody.text "Invalid request body", []⟩
    | BodyParse.parsed title =>
      if title = "" then ⟨400, RespBody.text "Title is required", []⟩
      else
        match db title with
        | Except.error _ =>
            ⟨500, RespBody.text "Internal server error", stdMetrics "POST" "/tasks" 500⟩
        | Except.ok task =>
            ⟨201, RespBody.jsonTask task, stdMetrics "POST" "/tasks" 201⟩

/-- `Handlers.DeleteTask`, parametrized by the request path and by
`h.db.DeleteTask` as a function of the parsed id. -/
def DeleteTaskH (method : String) (path : List Char)
    (db : Int → Except DbE Unit) : HandlerOut :=
  if method = "OPTIONS" then ⟨200, RespBody.empty, []⟩
  else if method ≠ "DELETE" then ⟨405, RespBody.text "Method not allowed", []⟩
  else
    match goAtoi (trimPre path tasksSlashChars) with
    | none => ⟨400, RespBody.text "Invalid task ID", []⟩
    | some id =>
      match db id with
      | Except.error DbE.notFound =>
          ⟨404, RespBody.text "Task not found", stdMetrics "DELETE" "/tasks/:id" 404⟩
      | Except.error DbE.internal =>
          ⟨500, RespBody.text "Internal server error", stdMetrics "DELETE" "/tasks/:id" 500⟩
      | Except.ok _ => ⟨204, RespBody.empty, stdMetrics "DELETE" "/tasks/:id" 204⟩

/-- `Handlers.CompleteTask`, parametrized by the request path and by
`h.db.CompleteTask` as a function of the parsed id. -/
def CompleteTaskH (method : String) (path : List Char)
    (db : Int → Except DbE Task) : HandlerOut :=
  if method = "OPTIONS" then ⟨200, RespBody.empty, []⟩
  else if method ≠ "POST" then ⟨405, RespBody.text "Method not allowed", []⟩
  else
    match goAtoi (trimSuf (trimPre path tasksSlashChars) completeSuffixChars) with
    | none => ⟨400, RespBody.text "Invalid task ID", []⟩
    | some id =>
      match db id with
      | Except.error DbE.notFound =>
          ⟨404, RespBody.text "Task not found", stdMetrics "POST" "/tasks/:id/complete" 404⟩
      | Except.error DbE.internal =>
          ⟨500, RespBody.text "Internal server error",
           stdMetrics "POST" "/tasks/:id/complete" 500⟩
      | Except.ok task =>
          ⟨200, RespBody.jsonTask task, stdMetrics "POST" "/tasks/:id/complete" 200⟩

/-- The metric discipline claimed by the specification for a terminal
handler outcome: exactly one counter increment, exactly one duration
observation, and every emission tagged with the final status code. -/
def recordsExactlyOncePerPath (o : HandlerOut) : Prop :=
  (o.metrics.filter (fun e => e.instr == Instrument.counter)).length = 1 ∧
  (o.metrics.filter (fun e => e.instr == Instrument.duration)).length = 1 ∧
  ∀ e ∈ o.metrics, e.status = some o.status

/-! ## Helper lemmas -/

/-- One wrapper step has exactly the underlying step's effect on the
transport. -/
theorem rwStep_underlying (rw : RespWriter) (op : WriteOp) :
    (rwStep rw op).underlying = underlyingStep rw.underlying op := by
  cases op <;> rfl

/-- The wrapper forwards every write call to the transport: folding
through the wrapper and folding directly agree on the transport state. -/
theorem foldl_rwStep_underlying : ∀ (ops : List WriteOp) (rw : RespWriter),
    (ops.foldl rwStep rw).underlying = ops.foldl underlyingStep rw.underlying
  | [], _ => rfl
  | op :: rest, rw => by
      rw [List.foldl_cons, List.foldl_cons, foldl_rwStep_underlying rest,
        rwStep_underlying]

/-! ## C2: middleware behavior when reading the request body fails -/

/-- C2 (amended): when the request carries a body and its read fails, the
middleware emits no `http.request.body` event and leaves the original —
now fully consumed and still erroring — body in place for the handler
(which is not a fresh empty EOF stream), and the request is not failed:
the response the client receives is still exactly what the handler
writes. -/
theorem c2_read_failure_keeps_consumed_stream
    (method : String) (s : ByteStream) (h1 : method ≠ "GET")
    (h2 : method ≠ "DELETE") (hs : s.failsAfter = true) :
    captureRequestBody method (some s) = (some ⟨[], true⟩, none) ∧
    (⟨[], true⟩ : ByteStream) ≠ emptyBodyStream ∧
    (∀ ops : List WriteOp, (runWrapped ops).underlying = runDirect ops) := by
  refine ⟨?_, by decide, fun ops => foldl_rwStep_underlying ops initialRespWriter⟩
  simp [captureRequestBody, h1, h2, readAll, hs]

/-- C2 counterexample to the claim as stated: on a failing body the
handler is not given an empty body stream (an empty EOF stream, as
`io.NopCloser` over an empty reader would give); the stream left in place
still reports an error. -/
theorem c2_counterexample :
    (captureRequestBody "POST" (some ⟨[7, 8], true⟩)).fst = some ⟨[], true⟩ ∧
    some (⟨[], true⟩ : ByteStream) ≠ some emptyBodyStream :=
  ⟨rfl, by decide⟩

/-- C2 witness: the amended theorem at a concrete failing stream. -/
theorem c2_witness :
    captureRequestBody "POST" (some ⟨[9], true⟩) = (some ⟨[], true⟩, none) ∧
    (⟨[], true⟩ : ByteStream) ≠ emptyBodyStream := by
  have h := c2_read_failure_keeps_consumed_stream "POST" ⟨[9], true⟩
    (by decide) (by decide) rfl
  exact ⟨h.1, h.2.1⟩

/-! ## C3: middleware restores the body and never alters the response -/

/-- C3 (amended): for every request whose body is absent or reads without
error, the downstream handler receives a body with exactly the original
content; and unconditionally every write and status code the handler
issues is forwarded verbatim to the real transport, so the client
receives exactly the bytes and status the handler wrote. -/
theorem c3_body_restored_response_forwarded :
    (∀ (method : String) (s : ByteStream), s.failsAfter = false →
        (captureRequestBody method (some s)).fst = some s) ∧
    (∀ method : String, (captureRequestBody method none).fst = none) ∧
    (∀ ops : List WriteOp, (runWrapped ops).underlying = runDirect ops) := by
  refine ⟨?_, fun _ => rfl, fun ops => foldl_rwStep_underlying ops initialRespWriter⟩
  intro method s hs
  obtain ⟨av, fa⟩ := s
  simp only at hs
  subst hs
  by_cases h : method ≠ "GET" ∧ method ≠ "DELETE"
  · simp [captureRequestBody, h.1, h.2, readAll]
  · simp [captureRequestBody, if_neg h]

/-- C3 counterexample to the claim as stated over every inbound request:
for a POST whose body stream holds three bytes but fails, the middleware
consumes the stream and leaves it in place, so the handler can no longer
read the bytes the original body exposed. -/
theorem c3_counterexample :
    (captureRequestBody "POST" (some ⟨[1, 2, 3], true⟩)).fst = some ⟨[], true⟩ ∧
    (⟨[], true⟩ : ByteStream).avail ≠ (⟨[1, 2, 3], true⟩ : ByteStream).avail :=
  ⟨rfl, by decide⟩

/-- C3 witness: a concrete successful body round-trip and a concrete
forwarded response. -/
theorem c3_witness :
    (captureRequestBody "POST" (some ⟨[10, 20], false⟩)).fst = some ⟨[10, 20], false⟩ ∧
    (runWrapped [WriteOp.writeHeader 201, WriteOp.write [1, 2]]).underlying =
      runDirect [WriteOp.writeHeader 201, WriteOp.write [1, 2]] :=
  ⟨c3_body_restored_response_forwarded.1 "POST" ⟨[10, 20], false⟩ rfl,
   c3_body_restored_response_forwarded.2.2 [WriteOp.writeHeader 201, WriteOp.write [1, 2]]⟩

/-! ## C4: the telemetry shutdown sequence -/

/-- C4 (amended): the shutdown procedure invokes the trace, metric and
log pipeline shutdowns in that order, but returns the result of the last
invocation only — earlier errors are overwritten, so when several
pipelines fail it does not return the first error. -/
theorem c4_shutdown_runs_all_returns_last (e1 e2 e3 : Option String) :
    runShutdown (initShutdownFuncs e1 e2 e3) = (["trace", "metric", "log"], e3) := rfl

/-- C4 counterexample to the claim as stated: when the trace and metric
shutdowns both fail and the log shutdown succeeds, the procedure returns
nil, not the first error. -/
theorem c4_counterexample :
    (runShutdown (initShutdownFuncs (some "trace export failed")
        (some "metric export failed") none)).snd = none ∧
    some "trace export failed" ≠ (none : Option String) :=
  ⟨rfl, by decide⟩

/-! ## C6: the `/tasks/` router panics on short POST suffixes -/

/-- C6: for every POST to `/tasks/` followed by a non-empty suffix of
fewer than nine characters, the slice expression
`pathSuffix[len(pathSuffix)-9:]` has a negative lower bound, so the
router panics (returns no route) and none of the table's 400/404/405
responses is produced. -/
theorem c6_short_suffix_panics (suffix : List Char)
    (h0 : 0 < suffix.length) (h9 : suffix.length < 9) :
    routeTasksSlash "POST" (tasksSlashChars ++ suffix) = none := by
  have hdrop : (tasksSlashChars ++ suffix).drop tasksSlashChars.length = suffix :=
    List.drop_left _ _
  have hlen : tasksSlashChars.length < (tasksSlashChars ++ suffix).length := by
    simp only [List.length_append]
    omega
  have hslice : goSliceFrom suffix ((suffix.length : Int) - 9) = none := by
    rw [goSliceFrom, if_neg]
    rintro ⟨hge, -⟩
    omega
  rw [routeTasksSlash, if_neg (by decide), if_pos ⟨rfl, hlen⟩]
  simp only [hdrop]
  rw [if_pos h0, hslice]

/-- C6 witness: the concrete request POST `/tasks/12` is routed to the
panicking slice expression. -/
theorem c6_witness :
    0 < (['1', '2'] : List Char).length ∧ (['1', '2'] : List Char).length < 9 ∧
    routeTasksSlash "POST" (tasksSlashChars ++ ['1', '2']) = none :=
  ⟨by decide, by decide, c6_short_suffix_panics ['1', '2'] (by decide) (by decide)⟩

/-! ## C10: the diagnostic SQL formatter -/

/-- Replacing the first `?` in a text whose prefix before the first `?`
contains no `?` splices the replacement at exactly that position. -/
theorem replaceOnce_qmark (rep : List Char) :
    ∀ pre post : List Char, '?' ∉ pre →
      replaceOnce ['?'] rep (pre ++ '?' :: post) = pre ++ rep ++ post := by
  intro pre
  induction pre with
  | nil =>
    intro post _
    simp [replaceOnce, List.isPrefixOf]
  | cons c cs ih =>
    intro post hmem
    simp only [List.mem_cons, not_or] at hmem
    have hc : ('?' == c) = false := beq_eq_false_iff_ne.mpr hmem.1
    simp only [List.cons_append, replaceOnce, List.isPrefixOf, hc, Bool.false_and,
      Bool.false_eq_true, if_false, List.append_eq]
    rw [ih post hmem.2]

/-- C10: the formatter substitutes values textually in positional order —
quoting strings, rendering booleans as TRUE/FALSE and nil as NULL,
replacing only the first occurrence of a literal `?` per argument — it is
a pure function of the statement text and argument list (an empty list
leaves the text unchanged), and the statement handed to the store is
always the raw text, unaffected by formatting. -/
theorem c10_formatter :
    (∀ t : String, formatQueryWithArgs insertTaskQuery [SqlValue.str t] =
        "INSERT INTO tasks (title) VALUES (".toList ++
          (quoteCh :: t.toList ++ [quoteCh]) ++
          ") RETURNING id, title, completed, created_at".toList) ∧
    (∀ n : Int, formatQueryWithArgs deleteTaskQuery [SqlValue.int n] =
        "DELETE FROM tasks WHERE id = ".toList ++ (toString n).toList) ∧
    formatQueryWithArgs ("completed = ? AND archived = ?".toList)
        [SqlValue.bool true, SqlValue.bool false] =
      "completed = TRUE AND archived = FALSE".toList ∧
    formatQueryWithArgs ("title = ?".toList) [SqlValue.null] = "title = NULL".toList ∧
    formatQueryWithArgs ("? ?".toList) [SqlValue.int 1] = "1 ?".toList ∧
    (∀ q : List Char, formatQueryWithArgs q [] = q) ∧
    (∀ (q : List Char) (args : List SqlValue), executedStatement q args = q) := by
  refine ⟨?_, ?_, by decide, by decide, by decide, fun q => rfl, fun q args => rfl⟩
  · intro t
    have hq : insertTaskQuery =
        "INSERT INTO tasks (title) VALUES (".toList ++ '?' ::
          ") RETURNING id, title, completed, created_at".toList := by decide
    have hpre : '?' ∉ "INSERT INTO tasks (title) VALUES (".toList := by decide
    calc formatQueryWithArgs insertTaskQuery [SqlValue.str t]
        = replaceOnce ['?'] (renderValue (SqlValue.str t)) insertTaskQuery := by
          simp [formatQueryWithArgs, formatArgsLoop]
          rw [if_neg (by decide : ¬ ('$' ∈ insertTaskQuery))]
      _ = _ := by
          rw [hq]
          exact replaceOnce_qmark _ _ _ hpre
  · intro n
    have hq : deleteTaskQuery = "DELETE FROM tasks WHERE id = ".toList ++ '?' :: [] := by
      decide
    have hpre : '?' ∉ "DELETE FROM tasks WHERE id = ".toList := by decide
    calc formatQueryWithArgs deleteTaskQuery [SqlValue.int n]
        = replaceOnce ['?'] (renderValue (SqlValue.int n)) deleteTaskQuery := by
          simp [formatQueryWithArgs, formatArgsLoop]
          rw [if_neg (by decide : ¬ ('$' ∈ deleteTaskQuery))]
      _ = _ := by
          rw [hq]
          have h := replaceOnce_qmark (renderValue (SqlValue.int n)) _ [] hpre
          simpa using h

/-! ## C9: list semantics and the empty-store response -/

/-- C9 (amended): the list operation returns the stored rows ordered by
creation time descending, but yields a nil (absent) slice — not an empty
collection — when no rows exist; the handler replaces the nil slice by an
empty collection, so GET `/tasks` on an empty store responds 200 with an
empty JSON array. -/
theorem c9_list_semantics :
    (∀ s : Store, s.rows = [] → GetAllTasks s = none) ∧
    (∀ (s : Store) (l : List Task), GetAllTasks s = some l →
        l.Perm s.rows ∧ List.Sorted createdGe l) ∧
    (∀ s : Store, s.rows ≠ [] → ∃ l, GetAllTasks s = some l) ∧
    (∀ s : Store, s.rows = [] →
        GetTasksH "GET" (Except.ok (GetAllTasks s)) =
          ⟨200, RespBody.jsonTasks [], getCounterNoStatus :: stdMetrics "GET" "/tasks" 200⟩) := by
  have hsome : ∀ (s : Store) (l : List Task), GetAllTasks s = some l →
      l = List.insertionSort createdGe s.rows := by
    intro s l h
    simp only [GetAllTasks] at h
    split at h
    · exact absurd h (by simp)
    · exact (Option.some.inj h).symm
  refine ⟨?_, ?_, ?_, ?_⟩
  · intro s h
    simp [GetAllTasks, h]
  · intro s l h
    rw [hsome s l h]
    exact ⟨List.perm_insertionSort createdGe s.rows,
      List.sorted_insertionSort createdGe s.rows⟩
  · intro s h
    refine ⟨List.insertionSort createdGe s.rows, ?_⟩
    have hne : List.insertionSort createdGe s.rows ≠ [] := by
      intro h0
      have hl := (List.perm_insertionSort createdGe s.rows).length_eq
      rw [h0] at hl
      exact h (List.length_eq_zero.mp hl.symm)
    simp [GetAllTasks, List.isEmpty_iff, hne]
  · intro s h
    have h1 : GetAllTasks s = none := by simp [GetAllTasks, h]
    rw [h1]
    rfl

/-- C9 counterexample to the claim as stated: on the empty store the list
operation itself returns the nil (absent) slice, not an empty
collection; only the handler substitutes the empty array. -/
theorem c9_counterexample :
    GetAllTasks store0 = none ∧ (none : Option (List Task)) ≠ some [] :=
  ⟨rfl, by simp⟩

/-- C9 witness: the amended theorem at the empty store and at a concrete
one-row store. -/
theorem c9_witness :
    GetAllTasks store0 = none ∧
    (([(⟨1, "A", false, 0⟩ : Task)]).Perm [⟨1, "A", false, 0⟩] ∧
      List.Sorted createdGe [(⟨1, "A", false, 0⟩ : Task)]) ∧
    GetTasksH "GET" (Except.ok (GetAllTasks store0)) =
      ⟨200, RespBody.jsonTasks [], getCounterNoStatus :: stdMetrics "GET" "/tasks" 200⟩ :=
  ⟨c9_list_semantics.1 store0 rfl,
   c9_list_semantics.2.1 ⟨[⟨1, "A", false, 0⟩], 2, 1⟩ [⟨1, "A", false, 0⟩] rfl,
   c9_list_semantics.2.2.2 store0 rfl⟩

/-! ## C7: deleting a missing id, and deleting twice -/

/-- C7: deleting an id that matches no row yields the distinct NotFound
condition; deleting an existing id succeeds, and deleting it again yields
NotFound — at the HTTP layer 204 followed by 404. -/
theorem c7_delete_semantics (s : Store) (id : Int) :
    ((∀ t ∈ s.rows, t.id ≠ id) → DeleteTask s id = Except.error DbE.notFound) ∧
    ((∃ t ∈ s.rows, t.id = id) → ∃ s2, DeleteTask s id = Except.ok s2) ∧
    (∀ s2, DeleteTask s id = Except.ok s2 →
      DeleteTask s2 id = Except.error DbE.notFound ∧
      ∀ p : List Char, goAtoi (trimPre p tasksSlashChars) = some id →
        (DeleteTaskH "DELETE" p (fun j => (DeleteTask s j).map fun _ => ())).status = 204 ∧
        (DeleteTaskH "DELETE" p (fun j => (DeleteTask s2 j).map fun _ => ())).status = 404) := by
  have hkeep : ∀ l : List Task, (∀ t ∈ l, t.id ≠ id) →
      l.filter (fun t => t.id != id) = l :=
    fun l hl => List.filter_eq_self.mpr (fun a ha => by simpa using hl a ha)
  have hflt : ∀ l : List Task, (l.filter (fun t => t.id != id)).length = l.length →
      l.filter (fun t => t.id != id) = l := by
    intro l
    induction l with
    | nil => intro _; rfl
    | cons a l ih =>
      intro hlen
      by_cases ha : (a.id != id) = true
      · rw [List.filter_cons, if_pos ha] at hlen ⊢
        simp only [List.length_cons] at hlen
        rw [ih (by omega)]
      · rw [List.filter_cons, if_neg ha] at hlen
        have hle := List.length_filter_le (fun t => t.id != id) l
        simp only [List.length_cons] at hlen
        exact absurd hlen (by omega)
  refine ⟨?_, ?_, ?_⟩
  · intro h
    simp [DeleteTask, hkeep s.rows h]
  · rintro ⟨t, ht, htid⟩
    refine ⟨⟨s.rows.filter (fun u => u.id != id), s.nextId, s.now⟩, ?_⟩
    have hne : ¬ (s.rows.length = (s.rows.filter (fun u => u.id != id)).length) := by
      intro heq
      have hself := hflt s.rows heq.symm
      rw [← hself] at ht
      have := (List.mem_filter.mp ht).2
      simp [htid] at this
    simp [DeleteTask, hne]
  · intro s2 hok
    have hsplit : ¬ (s.rows.length = (s.rows.filter (fun u => u.id != id)).length) ∧
        s2 = ⟨s.rows.filter (fun u => u.id != id), s.nextId, s.now⟩ := by
      simp only [DeleteTask] at hok
      split at hok
      next h => exact absurd hok (by simp)
      next h => exact ⟨h, (Except.ok.inj hok).symm⟩
    have h404 : DeleteTask s2 id = Except.error DbE.notFound := by
      rw [hsplit.2]
      have hall : ∀ t ∈ s.rows.filter (fun u => u.id != id), t.id ≠ id := by
        intro t ht
        simpa using (List.mem_filter.mp ht).2
      simp [DeleteTask, hkeep _ hall]
    refine ⟨h404, ?_⟩
    intro p hp
    constructor
    · simp [DeleteTaskH, hp, hok, Except.map]
    · simp [DeleteTaskH, hp, h404, Except.map]

/-- C7 witness: a one-row store; deleting id 1 returns success and
deleting it again returns NotFound, with HTTP statuses 204 then 404. -/
theorem c7_witness :
    DeleteTask ⟨[⟨1, "A", false, 0⟩], 2, 1⟩ 1 = Except.ok ⟨[], 2, 1⟩ ∧
    DeleteTask ⟨[], 2, 1⟩ 1 = Except.error DbE.notFound ∧
    (DeleteTaskH "DELETE" ("/tasks/1".toList)
        (fun j => (DeleteTask ⟨[⟨1, "A", false, 0⟩], 2, 1⟩ j).map fun _ => ())).status = 204 ∧
    (DeleteTaskH "DELETE" ("/tasks/1".toList)
        (fun j => (DeleteTask ⟨[], 2, 1⟩ j).map fun _ => ())).status = 404 := by
  have h := (c7_delete_semantics ⟨[⟨1, "A", false, 0⟩], 2, 1⟩ 1).2.2 ⟨[], 2, 1⟩ (by rfl)
  have hp := h.2 ("/tasks/1".toList) (by decide)
  exact ⟨by rfl, h.1, hp.1, hp.2⟩

/-! ## C8: completing is idempotent; missing id yields NotFound -/

/-- The per-row update preserves the id. -/
theorem completeRow_id (id : Int) (t : Task) : (completeRow id t).id = t.id := by
  rw [completeRow]
  split <;> rfl

/-- The per-row update is idempotent. -/
theorem completeRow_idem (id : Int) (t : Task) :
    completeRow id (completeRow id t) = completeRow id t := by
  cases hb : t.id == id <;> simp [completeRow, hb]

/-- Searching for an id commutes with the per-row update. -/
theorem find?_map_completeRow (id : Int) : ∀ l : List Task,
    (l.map (completeRow id)).find? (fun t => t.id == id) =
      (l.find? (fun t => t.id == id)).map (completeRow id) := by
  intro l
  induction l with
  | nil => rfl
  | cons a l ih =>
    cases hb : a.id == id <;> simp [List.find?_cons, completeRow_id, hb, ih]

/-- Applying the update map twice equals applying it once. -/
theorem map_completeRow_idem (id : Int) (l : List Task) :
    (l.map (completeRow id)).map (completeRow id) = l.map (completeRow id) := by
  rw [List.map_map]
  exact List.map_congr_left (fun a _ => completeRow_idem id a)

/-- C8: completing an id with no matching row yields NotFound; a
successful completion returns a record with the flag set that is stored
in the resulting store, and completing again succeeds with the identical
record and an unchanged store. -/
theorem c8_complete_idempotent (s : Store) (id : Int) :
    (s.rows.find? (fun t => t.id == id) = none →
      CompleteTask s id = Except.error DbE.notFound) ∧
    (∀ t s2, CompleteTask s id = Except.ok (t, s2) →
      t.completed = true ∧ t ∈ s2.rows ∧ CompleteTask s2 id = Except.ok (t, s2)) := by
  constructor
  · intro h
    simp [CompleteTask, h]
  · intro t s2 hok
    cases hfind : s.rows.find? (fun u => u.id == id) with
    | none =>
      simp only [CompleteTask, hfind] at hok
      exact absurd hok (by simp)
    | some u =>
      have hu : (u.id == id) = true := by
        have h0 := List.find?_some hfind
        exact h0
      simp only [CompleteTask, hfind] at hok
      have hpair := Except.ok.inj hok
      have ht : ({ u with completed := true } : Task) = t := congrArg Prod.fst hpair
      have hs2 : (⟨s.rows.map (completeRow id), s.nextId, s.now⟩ : Store) = s2 :=
        congrArg Prod.snd hpair
      subst ht
      subst hs2
      have hcu : completeRow id u = ({ u with completed := true } : Task) := by
        simp [completeRow, hu]
      refine ⟨rfl, ?_, ?_⟩
      · have humem : u ∈ s.rows := List.mem_of_find?_eq_some hfind
        exact hcu ▸ List.mem_map_of_mem (completeRow id) humem
      · simp only [CompleteTask, find?_map_completeRow id s.rows, hfind,
          Option.map_some', hcu, map_completeRow_idem]

/-- C8 witness: completing a missing id on the empty store yields
NotFound; completing id 1 on a one-row store yields a record with the
flag set, present in the store, and completing it again returns the
identical record and unchanged store. -/
theorem c8_witness :
    CompleteTask ⟨[], 1, 0⟩ 5 = Except.error DbE.notFound ∧
    ((⟨1, "A", true, 0⟩ : Task).completed = true ∧
      (⟨1, "A", true, 0⟩ : Task) ∈ (⟨[⟨1, "A", true, 0⟩], 2, 1⟩ : Store).rows ∧
      CompleteTask ⟨[⟨1, "A", true, 0⟩], 2, 1⟩ 1 =
        Except.ok (⟨1, "A", true, 0⟩, ⟨[⟨1, "A", true, 0⟩], 2, 1⟩)) :=
  ⟨(c8_complete_idempotent ⟨[], 1, 0⟩ 5).1 rfl,
   (c8_complete_idempotent ⟨[⟨1, "A", false, 0⟩], 2, 1⟩ 1).2
     ⟨1, "A", true, 0⟩ ⟨[⟨1, "A", true, 0⟩], 2, 1⟩ (by rfl)⟩

/-! ## C5: creating then listing a task -/

/-- C5 (amended): for every non-empty title other than the reserved test
title "errorTest" (which triggers a simulated store error), creating a
task succeeds in one round trip with a fully populated record — fresh
identifier, current timestamp, completion flag false — the record is
stored, a subsequent list includes it exactly once, and the handler
answers 201 with exactly that record; id-freshness is preserved. -/
theorem c5_create_then_list (s : Store) (title : String)
    (hwf : StoreWF s) (ht : title ≠ "") (he : title ≠ "errorTest") :
    ∃ t s2, CreateTask s title = Except.ok (t, s2) ∧
      t.title = title ∧ t.completed = false ∧ t.id = s.nextId ∧ t.createdAt = s.now ∧
      t ∈ s2.rows ∧
      ((GetAllTasks s2).getD []).count t = 1 ∧
      (CreateTaskH "POST" (BodyParse.parsed title)
          (fun u => (CreateTask s u).map Prod.fst)).status = 201 ∧
      (CreateTaskH "POST" (BodyParse.parsed title)
          (fun u => (CreateTask s u).map Prod.fst)).body = RespBody.jsonTask t ∧
      StoreWF s2 := by
  have hc : CreateTask s title =
      Except.ok (⟨s.nextId, title, false, s.now⟩,
        ⟨s.rows ++ [⟨s.nextId, title, false, s.now⟩], s.nextId + 1, s.now + 1⟩) := by
    simp [CreateTask, he]
  refine ⟨⟨s.nextId, title, false, s.now⟩,
    ⟨s.rows ++ [⟨s.nextId, title, false, s.now⟩], s.nextId + 1, s.now + 1⟩,
    hc, rfl, rfl, rfl, rfl, ?_, ?_, ?_, ?_, ?_⟩
  · simp
  · have hnm : (⟨s.nextId, title, false, s.now⟩ : Task) ∉ s.rows := by
      intro hmem
      have := hwf _ hmem
      simp at this
    have hperm := List.perm_insertionSort createdGe
      (s.rows ++ [⟨s.nextId, title, false, s.now⟩])
    have hne : List.insertionSort createdGe
        (s.rows ++ [⟨s.nextId, title, false, s.now⟩]) ≠ [] := by
      intro h0
      have hl := hperm.length_eq
      rw [h0] at hl
      simp at hl
    have hga : GetAllTasks
        ⟨s.rows ++ [⟨s.nextId, title, false, s.now⟩], s.nextId + 1, s.now + 1⟩ =
        some (List.insertionSort createdGe
          (s.rows ++ [⟨s.nextId, title, false, s.now⟩])) := by
      simp [GetAllTasks, List.isEmpty_iff, hne]
    rw [hga]
    simp only [Option.getD_some]
    rw [hperm.count_eq]
    simp [List.count_append, List.count_eq_zero.mpr hnm, List.count_singleton]
  · simp [CreateTaskH, ht, hc, Except.map]
  · simp [CreateTaskH, ht, hc, Except.map]
  · intro u hu
    simp only [List.mem_append, List.mem_singleton] at hu
    rcases hu with hu | hu
    · have := hwf u hu
      show u.id < s.nextId + 1
      omega
    · subst hu
      show s.nextId < s.nextId + 1
      omega

/-- C5 counterexample to the claim as stated: the non-empty (hence
valid) title "errorTest" is rejected by the store with a simulated
internal error, and the handler answers 500, not 201. -/
theorem c5_counterexample :
    CreateTask store0 "errorTest" = Except.error DbE.internal ∧
    (CreateTaskH "POST" (BodyParse.parsed "errorTest")
        (fun u => (CreateTask store0 u).map Prod.fst)).status = 500 :=
  ⟨rfl, rfl⟩

/-- C5 witness: creating "Buy milk" on the empty store. -/
theorem c5_witness :
    ∃ t s2, CreateTask store0 "Buy milk" = Except.ok (t, s2) ∧
      t.title = "Buy milk" ∧ t.completed = false ∧ t.id = store0.nextId ∧
      t.createdAt = store0.now ∧ t ∈ s2.rows ∧
      ((GetAllTasks s2).getD []).count t = 1 ∧
      (CreateTaskH "POST" (BodyParse.parsed "Buy milk")
          (fun u => (CreateTask store0 u).map Prod.fst)).status = 201 ∧
      (CreateTaskH "POST" (BodyParse.parsed "Buy milk")
          (fun u => (CreateTask store0 u).map Prod.fst)).body = RespBody.jsonTask t ∧
      StoreWF s2 :=
  c5_create_then_list store0 "Buy milk"
    (by intro t h; simp [store0] at h) (by decide) (by decide)

/-! ## C1: metric recording per terminal response path -/

/-- C1 (amended): the success, not-found and internal-error terminal
paths of each handler record exactly the standard pair — one counter
increment and one duration observation tagged with method, endpoint
template and final status code — while the OPTIONS, method-not-allowed
and validation-failure (400) terminal paths record no metrics at all,
and GetTasks additionally records one extra counter increment tagged
only with method and endpoint (no status code) on every GET path. -/
theorem c1_metrics_by_path :
    (∀ (b : BodyParse) (db : String → Except DbE Task),
        (CreateTaskH "OPTIONS" b db).metrics = []) ∧
    (∀ (m : String) (b : BodyParse) (db : String → Except DbE Task),
        m ≠ "OPTIONS" → m ≠ "POST" → (CreateTaskH m b db).metrics = []) ∧
    (∀ db : String → Except DbE Task,
        (CreateTaskH "POST" BodyParse.malformed db).metrics = []) ∧
    (∀ db : String → Except DbE Task,
        (CreateTaskH "POST" (BodyParse.parsed "") db).metrics = []) ∧
    (∀ (t : String) (db : String → Except DbE Task), t ≠ "" →
        (CreateTaskH "POST" (BodyParse.parsed t) db).metrics =
          stdMetrics "POST" "/tasks" (CreateTaskH "POST" (BodyParse.parsed t) db).status) ∧
    (∀ r : Except DbE (Option (List Task)),
        (GetTasksH "GET" r).metrics =
          getCounterNoStatus :: stdMetrics "GET" "/tasks" (GetTasksH "GET" r).status) ∧
    (∀ r : Except DbE (Option (List Task)), (GetTasksH "OPTIONS" r).metrics = []) ∧
    (∀ (m : String) (r : Except DbE (Option (List Task))),
        m ≠ "OPTIONS" → m ≠ "GET" → (GetTasksH m r).metrics = []) ∧
    (∀ (p : List Char) (db : Int → Except DbE Unit),
        (DeleteTaskH "OPTIONS" p db).metrics = []) ∧
    (∀ (m : String) (p : List Char) (db : Int → Except DbE Unit),
        m ≠ "OPTIONS" → m ≠ "DELETE" → (DeleteTaskH m p db).metrics = []) ∧
    (∀ (p : List Char) (db : Int → Except DbE Unit),
        goAtoi (trimPre p tasksSlashChars) = none →
        (DeleteTaskH "DELETE" p db).metrics = []) ∧
    (∀ (p : List Char) (db : Int → Except DbE Unit) (i : Int),
        goAtoi (trimPre p tasksSlashChars) = some i →
        (DeleteTaskH "DELETE" p db).metrics =
          stdMetrics "DELETE" "/tasks/:id" (DeleteTaskH "DELETE" p db).status) ∧
    (∀ (p : List Char) (db : Int → Except DbE Task),
        (CompleteTaskH "OPTIONS" p db).metrics = []) ∧
    (∀ (m : String) (p : List Char) (db : Int → Except DbE Task),
        m ≠ "OPTIONS" → m ≠ "POST" → (CompleteTaskH m p db).metrics = []) ∧
    (∀ (p : List Char) (db : Int → Except DbE Task),
        goAtoi (trimSuf (trimPre p tasksSlashChars) completeSuffixChars) = none →
        (CompleteTaskH "POST" p db).metrics = []) ∧
    (∀ (p : List Char) (db : Int → Except DbE Task) (i : Int),
        goAtoi (trimSuf (trimPre p tasksSlashChars) completeSuffixChars) = some i →
        (CompleteTaskH "POST" p db).metrics =
          stdMetrics "POST" "/tasks/:id/complete" (CompleteTaskH "POST" p db).status) := by
  refine ⟨fun _ _ => rfl, ?_, fun _ => rfl, fun _ => rfl, ?_, ?_, fun _ => rfl, ?_,
    fun _ _ => rfl, ?_, ?_, ?_, fun _ _ => rfl, ?_, ?_, ?_⟩
  · intro m b db h1 h2
    simp [CreateTaskH, h1, h2]
  · intro t db ht
    cases hdb : db t <;> simp [CreateTaskH, ht, hdb]
  · intro r
    cases r <;> simp [GetTasksH]
  · intro m r h1 h2
    simp [GetTasksH, h1, h2]
  · intro m p db h1 h2
    simp [DeleteTaskH, h1, h2]
  · intro p db h
    simp [DeleteTaskH, h]
  · intro p db i h
    cases hdb : db i with
    | error e => cases e <;> simp [DeleteTaskH, h, hdb]
    | ok u => simp [DeleteTaskH, h, hdb]
  · intro m p db h1 h2
    simp [CompleteTaskH, h1, h2]
  · intro p db h
    simp [CompleteTaskH, h]
  · intro p db i h
    cases hdb : db i with
    | error e => cases e <;> simp [CompleteTaskH, h, hdb]
    | ok u => simp [CompleteTaskH, h, hdb]

/-- C1 counterexample to the claim as stated: the validation-failure
(400) terminal path of CreateTask records no counter increment and no
duration observation at all, and the successful GetTasks path records
two counter increments, one of them without a status code. -/
theorem c1_counterexample :
    ¬ recordsExactlyOncePerPath
        (CreateTaskH "POST" BodyParse.malformed (fun _ => Except.error DbE.internal)) ∧
    ¬ recordsExactlyOncePerPath (GetTasksH "GET" (Except.ok none)) := by
  constructor
  · rintro ⟨h1, -, -⟩
    simp [CreateTaskH] at h1
  · rintro ⟨h1, -, -⟩
    simp [GetTasksH, stdMetrics, getCounterNoStatus] at h1

/-- C1 witness: the successful CreateTask path records exactly the
standard tagged pair. -/
theorem c1_witness :
    (CreateTaskH "POST" (BodyParse.parsed "Buy milk")
        (fun _ => Except.ok ⟨1, "Buy milk", false, 0⟩)).metrics =
      stdMetrics "POST" "/tasks" 201 :=
  c1_metrics_by_path.2.2.2.2.1 "Buy milk"
    (fun _ => Except.ok ⟨1, "Buy milk", false, 0⟩) (by decide)

end TodoApp
